import Mathlib

/-!
# Verification of the `Lock` guard (src/rust/src/lock.rs)

Shallow embedding of the cross-process advisory lock of the repository.
Filesystem paths are lists of components below the root; the filesystem is
explicit state (directories, regular files, open descriptors, held OS locks);
OS-call failures are injected through an oracle `Env`, so that the code's
error propagation and error swallowing become provable facts.
-/

namespace SMLock

/-- An I/O error, identified by its message. -/
abbrev IoError := String

/-- An absolute filesystem path: the list of components below the root.
`[]` is the root `/`, `["a", "b"]` is `/a/b`. -/
abbrev Path := List String

/-- `std::path::Path::parent`: `None` at the root, otherwise the path with
its last component removed. -/
def Path.parent : Path → Option Path
  | [] => none
  | a :: as => some (List.dropLast (a :: as))

/-- `PathBuf::join` with a bare file name as the argument. -/
def Path.join (p : Path) (s : String) : Path := p ++ [s]

/-- Every prefix of `p`, the root and `p` itself included: the directories
that must exist once `p` has been created with all missing ancestors. -/
def ancestors (p : Path) : List Path :=
  (List.range (p.length + 1)).map fun k => p.take k

/-- The filesystem state visible to the lock module: which directories and
regular files exist, which descriptors are open, and on which sentinel
files this process holds the OS exclusive advisory lock. -/
structure FS where
  dirs : List Path
  files : List Path
  openHandles : List Path
  locked : List Path
deriving DecidableEq

/-- `std::path::Path::exists`: something (file or directory) is present. -/
def FS.pathExists (fs : FS) (p : Path) : Bool :=
  decide (p ∈ fs.files) || decide (p ∈ fs.dirs)

/-- Failure oracle: for each OS call, whether it fails at a given path and
with which error. A field returning `none` means the call succeeds there. -/
structure Env where
  createDirErr : Path → Option IoError
  createFileErr : Path → Option IoError
  lockErr : Path → Option IoError
  removeErr : Path → Option IoError
  unlockErr : Path → Option IoError

/-- Result of a call that can also abort the process (`unwrap` of `None`). -/
inductive Outcome (α : Type) where
  | ok : α → Outcome α
  | err : IoError → Outcome α
  | panicked : Outcome α
deriving DecidableEq

/-- Modelled from the spec: collaborator `crate::files::create_path_if_not_exists`
(its source is not under src/). "Ensure this directory exists", creating it and
any missing ancestors, idempotent, failing with an I/O error kind on failure. -/
def create_path_if_not_exists (env : Env) (fs : FS) (p : Path) :
    Except IoError FS :=
  match env.createDirErr p with
  | some e => .error e
  | none => .ok { fs with dirs := fs.dirs ++ ancestors p }

/-- Modelled from the spec: collaborator `crate::files::create_parent_path_if_not_exists`
(its source is not under src/). "Ensure this path's parent directory exists";
when the path has no parent there is nothing to ensure and it succeeds. -/
def create_parent_path_if_not_exists (env : Env) (fs : FS) (p : Path) :
    Except IoError FS :=
  match Path.parent p with
  | none => .ok fs
  | some par => create_path_if_not_exists env fs par

/-- `File::create(&path)`: create (or truncate an existing) regular file at
`p` and return an open handle to it, identified here by its path. -/
def fileCreate (env : Env) (fs : FS) (p : Path) : Except IoError (Path × FS) :=
  match env.createFileErr p with
  | some e => .error e
  | none =>
      .ok (p, { fs with files := fs.files.insert p,
                        openHandles := p :: fs.openHandles })

/-- `file.lock_exclusive().unwrap_or_default()`: request the OS exclusive
advisory lock on the handle; an error from the OS primitive is swallowed and
the lock is simply not recorded as held. -/
def lockExclusiveSwallowed (env : Env) (fs : FS) (h : Path) : FS :=
  match env.lockErr h with
  | some _ => fs
  | none => { fs with locked := fs.locked.insert h }

/-- The logging collaborator; informational only, not correctness-relevant. -/
structure Logger

/-- `log.debug(...)`: emits a trace, no filesystem effect. -/
def Logger.debug (_ : Logger) (_ : String) : Unit := ()

/-- `const LOCK_FILE: &str = "sm.lock"` — the fixed sentinel filename. -/
def LOCK_FILE : String := "sm.lock"

/-- The `Lock` guard: the open handle to the sentinel file and the sentinel
path, exactly the two fields of `struct Lock` in lock.rs. -/
structure Lock where
  file : Path
  path : Path
deriving DecidableEq

/-- `Lock::acquire` from lock.rs: pick the lock folder (the target's parent
when `single_file` is some, the target itself otherwise, `unwrap`-ing the
parent — a panic when there is none), ensure it exists, create the sentinel
file `folder/sm.lock`, emit a debug trace, request the exclusive lock with
the error swallowed, and return the guard. -/
def Lock.acquire (env : Env) (fs : FS) (log : Logger) (target : Path)
    (single_file : Option String) : Outcome (Lock × FS) :=
  let folderStep : Outcome (Path × FS) :=
    if single_file.isSome then
      match create_parent_path_if_not_exists env fs target with
      | .error e => .err e
      | .ok fs1 =>
          match Path.parent target with
          | none => .panicked
          | some par => .ok (par, fs1)
    else
      match create_path_if_not_exists env fs target with
      | .error e => .err e
      | .ok fs1 => .ok (target, fs1)
  match folderStep with
  | .panicked => .panicked
  | .err e => .err e
  | .ok (lock_folder, fs1) =>
      let path := Path.join lock_folder LOCK_FILE
      match fileCreate env fs1 path with
      | .error e => .err e
      | .ok (file, fs2) =>
          let _ := log.debug "Acquiring lock"
          let fs3 := lockExclusiveSwallowed env fs2 file
          .ok ({ file := file, path := path }, fs3)

/-- `fs::remove_file(&self.path)`: fails when no file is there, or when the
oracle injects an error; otherwise the file disappears. -/
def fsRemoveFile (env : Env) (fs : FS) (p : Path) : Except IoError FS :=
  if p ∈ fs.files then
    match env.removeErr p with
    | some e => .error e
    | none => .ok { fs with files := fs.files.filter (· ≠ p) }
  else .error "NotFound"

/-- `self.file.unlock()`: release the OS exclusive lock held on the handle. -/
def fileUnlock (env : Env) (fs : FS) (h : Path) : Except IoError FS :=
  match env.unlockErr h with
  | some e => .error e
  | none => .ok { fs with locked := fs.locked.filter (· ≠ h) }

/-- `Lock::release` from lock.rs: delete the sentinel file, then release the
OS lock, each with `unwrap_or_default()` (failures swallowed). The receiver
is returned so that the stability of its fields is a provable statement. -/
def Lock.release (env : Env) (l : Lock) (fs : FS) : Lock × FS :=
  let fs1 := match fsRemoveFile env fs l.path with
    | .ok f => f
    | .error _ => fs
  let fs2 := match fileUnlock env fs1 l.file with
    | .ok f => f
    | .error _ => fs1
  (l, fs2)

/-- `Lock::exists` from lock.rs: `self.path.exists()`. The receiver and the
filesystem are returned so that read-onliness is a provable statement. -/
def Lock.exists (l : Lock) (fs : FS) : Bool × (Lock × FS) :=
  (fs.pathExists l.path, (l, fs))

/-- Rust's implicit drop of a `Lock` (the source defines no `Drop` impl):
dropping the `file: File` field closes the descriptor, and the OS releases
the advisory lock held through it. No filesystem file is removed. -/
def Lock.drop (l : Lock) (fs : FS) : FS :=
  { fs with openHandles := fs.openHandles.erase l.file,
            locked := fs.locked.filter (· ≠ l.file) }

/-- The lock folder `Lock::acquire` derives from its inputs: the target's
parent in single-file mode, the target itself in directory mode. -/
def lockFolderOf (target : Path) (single_file : Option String) : Option Path :=
  if single_file.isSome then Path.parent target else some target

/-- An oracle under which every OS call succeeds. -/
def env0 : Env :=
  ⟨fun _ => none, fun _ => none, fun _ => none, fun _ => none, fun _ => none⟩

/-- The empty filesystem. -/
def fs0 : FS := ⟨[], [], [], []⟩

/-- A logger. -/
def log0 : Logger := ⟨⟩

/-- The lock and filesystem produced by acquiring `["cache"]` in directory
mode on the empty filesystem with no injected failures. -/
def l5 : Lock := ⟨["cache", "sm.lock"], ["cache", "sm.lock"]⟩

/-- See `l5`. -/
def fs5 : FS :=
  ⟨[[], ["cache"]], [["cache", "sm.lock"]], [["cache", "sm.lock"]],
    [["cache", "sm.lock"]]⟩

/-- An oracle under which the exclusive-lock request fails (as on a
filesystem without lock support) but every other OS call succeeds. -/
def envLockFail : Env :=
  ⟨fun _ => none, fun _ => none, fun _ => some "NotImplemented",
    fun _ => none, fun _ => none⟩

/-- An oracle under which directory creation fails everywhere. -/
def envDirFail : Env :=
  ⟨fun _ => some "PermissionDenied", fun _ => none, fun _ => none,
    fun _ => none, fun _ => none⟩

/-- An oracle under which file creation fails everywhere. -/
def envFileFail : Env :=
  ⟨fun _ => none, fun _ => some "IsADirectory", fun _ => none,
    fun _ => none, fun _ => none⟩

lemma filter_ne_twice (l : List Path) (x : Path) :
    (l.filter (· ≠ x)).filter (· ≠ x) = l.filter (· ≠ x) :=
  List.filter_eq_self.mpr fun _ ha => (List.mem_filter.mp ha).2

lemma acquire_ok_form (env : Env) (fs : FS) (log : Logger) (target : Path)
    (sf : Option String) (folder : Path)
    (hf : lockFolderOf target sf = some folder)
    (hd : env.createDirErr folder = none)
    (hc : env.createFileErr (Path.join folder LOCK_FILE) = none) :
    Lock.acquire env fs log target sf =
      .ok (⟨Path.join folder LOCK_FILE, Path.join folder LOCK_FILE⟩,
        lockExclusiveSwallowed env
          { dirs := fs.dirs ++ ancestors folder,
            files := fs.files.insert (Path.join folder LOCK_FILE),
            openHandles := Path.join folder LOCK_FILE :: fs.openHandles,
            locked := fs.locked }
          (Path.join folder LOCK_FILE)) := by
  cases sf with
  | none =>
      simp only [lockFolderOf, Option.isSome_none, Bool.false_eq_true,
        if_false, Option.some.injEq] at hf
      subst hf
      simp [Lock.acquire, create_path_if_not_exists, hd, fileCreate, hc]
  | some s =>
      simp only [lockFolderOf, Option.isSome_some, if_true] at hf
      simp [Lock.acquire, create_parent_path_if_not_exists, hf,
        create_path_if_not_exists, hd, fileCreate, hc]

/-- C5 counterexample. The source defines no `Drop` impl, so when the owning
scope ends without `release` only the `File` field's own drop runs: after a
successful acquire, the implicit drop leaves the sentinel file on disk (it is
still in `files`), refuting the claim that the destructor removes it — even
though it does close the descriptor and release the OS lock. -/
theorem drop_leaves_sentinel_on_disk :
    Lock.acquire env0 fs0 log0 ["cache"] none = .ok (l5, fs5) ∧
    l5.path ∈ (Lock.drop l5 fs5).files ∧
    (Lock.drop l5 fs5).openHandles = [] ∧
    (Lock.drop l5 fs5).locked = [] := by decide

/-- C5 (amended): when the owning scope ends without an explicit `release`,
the implicit drop releases the OS lock and closes the descriptor (no
descriptor leak), but the sentinel file is not removed from disk. -/
theorem drop_closes_descriptor_and_releases_lock (l : Lock) (fs : FS) :
    l.file ∉ (Lock.drop l fs).locked ∧
    (Lock.drop l fs).openHandles = fs.openHandles.erase l.file ∧
    (Lock.drop l fs).files = fs.files := by
  refine ⟨?_, rfl, rfl⟩
  simp [Lock.drop]

/-- C7: `exists` returns exactly whether something is on disk at the stored
sentinel path at call time, and repeated calls without an intervening
`release` observe the same state and return the same value. -/
theorem exists_observes_path_and_is_stable (l : Lock) (fs : FS) :
    ((Lock.exists l fs).1 = true ↔ (l.path ∈ fs.files ∨ l.path ∈ fs.dirs)) ∧
    Lock.exists (Lock.exists l fs).2.1 (Lock.exists l fs).2.2 =
      Lock.exists l fs := by
  constructor
  · simp [Lock.exists, FS.pathExists]
  · rfl

/-- C8: the `path` field is fixed after acquisition — `release` returns the
guard with all fields unchanged (in particular `path`), and `exists` changes
neither the guard nor any filesystem state; `release` is thus the only
state-mutating operation. -/
theorem release_and_exists_fix_path (env : Env) (l : Lock) (fs : FS) :
    (Lock.release env l fs).1 = l ∧
    ((Lock.release env l fs).1).path = l.path ∧
    (Lock.exists l fs).2.1 = l ∧
    (Lock.exists l fs).2.2 = fs :=
  ⟨rfl, rfl, rfl, rfl⟩

/-- C9: the content of `single_file` is never consulted — acquiring with
`some s1` and with `some s2` are the very same computation for any two
strings; only the `some`/`none` distinction selects the derivation. -/
theorem acquire_ignores_single_file_content (env : Env) (fs : FS)
    (log : Logger) (target : Path) (s1 s2 : String) :
    Lock.acquire env fs log target (some s1) =
      Lock.acquire env fs log target (some s2) := rfl

/-- C10: on a target with no parent, `acquire` in single-file mode reaches
`target.parent().unwrap()` on `None` and panics instead of returning an I/O
error. -/
theorem acquire_panics_when_no_parent (env : Env) (fs : FS) (log : Logger)
    (target : Path) (s : String) (h : Path.parent target = none) :
    Lock.acquire env fs log target (some s) = .panicked := by
  cases target with
  | nil => rfl
  | cons _ _ => simp [Path.parent] at h

/-- Witness for C10 at the root path. -/
theorem acquire_panics_when_no_parent_witness :
    Path.parent ([] : Path) = none ∧
    Lock.acquire env0 fs0 log0 [] (some "driver.zip") = .panicked :=
  ⟨rfl, acquire_panics_when_no_parent env0 fs0 log0 [] "driver.zip" rfl⟩

/-- C1: whenever `acquire` returns a guard, the lock folder is the target's
parent in single-file mode and the target itself in directory mode, the
guard's `path` is that folder joined with the fixed sentinel name `sm.lock`,
and the folder together with all its ancestors exists in the resulting
filesystem. -/
theorem acquire_creates_folder_and_sets_path (env : Env) (fs : FS)
    (log : Logger) (target : Path) (sf : Option String) (l : Lock) (fs2 : FS)
    (h : Lock.acquire env fs log target sf = .ok (l, fs2)) :
    ∃ folder, lockFolderOf target sf = some folder ∧
      l.path = Path.join folder LOCK_FILE ∧
      ∀ a ∈ ancestors folder, a ∈ fs2.dirs := by
  cases sf with
  | none =>
      cases hd : env.createDirErr target with
      | some e => simp [Lock.acquire, create_path_if_not_exists, hd] at h
      | none =>
          cases hc : env.createFileErr (Path.join target LOCK_FILE) with
          | some e =>
              simp [Lock.acquire, create_path_if_not_exists, hd,
                fileCreate, hc] at h
          | none =>
              cases hl : env.lockErr (Path.join target LOCK_FILE) with
              | some e =>
                  simp [Lock.acquire, create_path_if_not_exists, hd,
                    fileCreate, hc, lockExclusiveSwallowed, hl] at h
                  refine ⟨target, rfl, ?_, ?_⟩
                  · rw [← h.1]
                  · rw [← h.2]
                    intro a ha
                    simp [List.mem_append, ha]
              | none =>
                  simp [Lock.acquire, create_path_if_not_exists, hd,
                    fileCreate, hc, lockExclusiveSwallowed, hl] at h
                  refine ⟨target, rfl, ?_, ?_⟩
                  · rw [← h.1]
                  · rw [← h.2]
                    intro a ha
                    simp [List.mem_append, ha]
  | some s =>
      cases hp : Path.parent target with
      | none =>
          simp [Lock.acquire, create_parent_path_if_not_exists, hp] at h
      | some folder =>
          cases hd : env.createDirErr folder with
          | some e =>
              simp [Lock.acquire, create_parent_path_if_not_exists, hp,
                create_path_if_not_exists, hd] at h
          | none =>
              cases hc : env.createFileErr (Path.join folder LOCK_FILE) with
              | some e =>
                  simp [Lock.acquire, create_parent_path_if_not_exists, hp,
                    create_path_if_not_exists, hd, fileCreate, hc] at h
              | none =>
                  cases hl : env.lockErr (Path.join folder LOCK_FILE) with
                  | some e =>
                      simp [Lock.acquire, create_parent_path_if_not_exists,
                        hp, create_path_if_not_exists, hd, fileCreate, hc,
                        lockExclusiveSwallowed, hl] at h
                      refine ⟨folder, by simp [lockFolderOf, hp], ?_, ?_⟩
                      · rw [← h.1]
                      · rw [← h.2]
                        intro a ha
                        simp [List.mem_append, ha]
                  | none =>
                      simp [Lock.acquire, create_parent_path_if_not_exists,
                        hp, create_path_if_not_exists, hd, fileCreate, hc,
                        lockExclusiveSwallowed, hl] at h
                      refine ⟨folder, by simp [lockFolderOf, hp], ?_, ?_⟩
                      · rw [← h.1]
                      · rw [← h.2]
                        intro a ha
                        simp [List.mem_append, ha]

/-- Witness for C1: acquiring `/cache` in directory mode on an empty
filesystem yields the sentinel path `/cache/sm.lock`, with `/cache` and its
ancestors created. -/
theorem acquire_creates_folder_and_sets_path_witness :
    Lock.acquire env0 fs0 log0 ["cache"] none = .ok (l5, fs5) ∧
    (∃ folder, lockFolderOf ["cache"] none = some folder ∧
      l5.path = Path.join folder LOCK_FILE ∧
      ∀ a ∈ ancestors folder, a ∈ fs5.dirs) :=
  ⟨by decide,
    acquire_creates_folder_and_sets_path env0 fs0 log0 ["cache"] none l5 fs5
      (by decide)⟩

/-- C2: when directory creation and sentinel-file creation succeed, `acquire`
returns a guard whatever the exclusive-lock request reports — `env.lockErr`
is unconstrained here, so in particular a failing lock request never turns
the result into an error. -/
theorem acquire_swallows_lock_error (env : Env) (fs : FS) (log : Logger)
    (target : Path) (sf : Option String) (folder : Path)
    (hf : lockFolderOf target sf = some folder)
    (hd : env.createDirErr folder = none)
    (hc : env.createFileErr (Path.join folder LOCK_FILE) = none) :
    ∃ l fs2, Lock.acquire env fs log target sf = .ok (l, fs2) :=
  ⟨_, _, acquire_ok_form env fs log target sf folder hf hd hc⟩

/-- Witness for C2: with an oracle whose exclusive-lock request always fails,
acquisition still returns a guard. -/
theorem acquire_swallows_lock_error_witness :
    envLockFail.lockErr (Path.join ["cache"] LOCK_FILE) =
      some "NotImplemented" ∧
    (∃ l fs2, Lock.acquire envLockFail fs0 log0 ["cache"] none =
      .ok (l, fs2)) :=
  ⟨rfl,
    acquire_swallows_lock_error envLockFail fs0 log0 ["cache"] none ["cache"]
      rfl rfl rfl⟩

/-- C3: a directory-creation failure, or a sentinel-file-creation failure,
makes `acquire` return that I/O error — the `Outcome.err` constructor carries
no `Lock`, so acquisition does not proceed past the failing step. -/
theorem acquire_setup_error_propagates (env : Env) (fs : FS) (log : Logger)
    (target : Path) (sf : Option String) (folder : Path) (e : IoError)
    (hf : lockFolderOf target sf = some folder) :
    (env.createDirErr folder = some e →
      Lock.acquire env fs log target sf = .err e) ∧
    (env.createDirErr folder = none →
      env.createFileErr (Path.join folder LOCK_FILE) = some e →
      Lock.acquire env fs log target sf = .err e) := by
  cases sf with
  | none =>
      simp only [lockFolderOf, Option.isSome_none, Bool.false_eq_true,
        if_false, Option.some.injEq] at hf
      subst hf
      constructor
      · intro hd
        simp [Lock.acquire, create_path_if_not_exists, hd]
      · intro hd hc
        simp [Lock.acquire, create_path_if_not_exists, hd, fileCreate, hc]
  | some s =>
      simp only [lockFolderOf, Option.isSome_some, if_true] at hf
      constructor
      · intro hd
        simp [Lock.acquire, create_parent_path_if_not_exists, hf,
          create_path_if_not_exists, hd]
      · intro hd hc
        simp [Lock.acquire, create_parent_path_if_not_exists, hf,
          create_path_if_not_exists, hd, fileCreate, hc]

/-- Witness for C3, on both failing steps: directory creation failing turns
into `.err`, and file creation failing (directories fine) turns into `.err`. -/
theorem acquire_setup_error_propagates_witness :
    envDirFail.createDirErr ["cache"] = some "PermissionDenied" ∧
    Lock.acquire envDirFail fs0 log0 ["cache"] none =
      .err "PermissionDenied" ∧
    envFileFail.createFileErr (Path.join ["cache"] LOCK_FILE) =
      some "IsADirectory" ∧
    Lock.acquire envFileFail fs0 log0 ["cache"] none =
      .err "IsADirectory" :=
  ⟨rfl,
    (acquire_setup_error_propagates envDirFail fs0 log0 ["cache"] none
      ["cache"] "PermissionDenied" rfl).1 rfl,
    rfl,
    (acquire_setup_error_propagates envFileFail fs0 log0 ["cache"] none
      ["cache"] "IsADirectory" rfl).2 rfl rfl⟩

/-- C4: `release` hands the guard back unchanged and never fails (its result
type has no error case — both the file deletion and the unlock are
swallowed); releasing again is a no-op, so any number of successive calls
gives the state of the first; and when the OS calls succeed the sentinel file
is gone and the OS lock no longer held. -/
theorem release_swallows_and_is_idempotent (env : Env) (l : Lock) (fs : FS) :
    (Lock.release env l fs).1 = l ∧
    Lock.release env (Lock.release env l fs).1 (Lock.release env l fs).2 =
      Lock.release env l fs ∧
    (env.removeErr l.path = none →
      l.path ∉ ((Lock.release env l fs).2).files) ∧
    (env.unlockErr l.file = none →
      l.file ∉ ((Lock.release env l fs).2).locked) := by
  refine ⟨rfl, ?_, ?_, ?_⟩
  · by_cases hp : l.path ∈ fs.files <;>
      cases hr : env.removeErr l.path <;>
      cases hu : env.unlockErr l.file <;>
      simp [Lock.release, fsRemoveFile, fileUnlock, hp, hr, hu,
        filter_ne_twice, List.mem_filter]
  · intro hr
    by_cases hp : l.path ∈ fs.files <;>
      cases hu : env.unlockErr l.file <;>
      simp [Lock.release, fsRemoveFile, fileUnlock, hp, hr, hu,
        List.mem_filter]
  · intro hu
    by_cases hp : l.path ∈ fs.files <;>
      cases hr : env.removeErr l.path <;>
      simp [Lock.release, fsRemoveFile, fileUnlock, hp, hr, hu,
        List.mem_filter]

/-- Witness for C4: after a clean release the sentinel file is deleted and
the OS lock dropped. -/
theorem release_swallows_and_is_idempotent_witness :
    env0.removeErr l5.path = none ∧ env0.unlockErr l5.file = none ∧
    l5.path ∉ ((Lock.release env0 l5 fs5).2).files ∧
    l5.file ∉ ((Lock.release env0 l5 fs5).2).locked :=
  ⟨rfl, rfl,
    (release_swallows_and_is_idempotent env0 l5 fs5).2.2.1 rfl,
    (release_swallows_and_is_idempotent env0 l5 fs5).2.2.2 rfl⟩

/-- C6: after `release` deletes the sentinel file (no injected deletion
failure, and no directory sitting at the sentinel path), a subsequent
`exists` on the released guard returns `false`. -/
theorem release_then_exists_false (env : Env) (l : Lock) (fs : FS)
    (hr : env.removeErr l.path = none) (hd : l.path ∉ fs.dirs) :
    (Lock.exists (Lock.release env l fs).1 (Lock.release env l fs).2).1 =
      false := by
  by_cases hp : l.path ∈ fs.files <;>
    cases hu : env.unlockErr l.file <;>
    simp [Lock.release, fsRemoveFile, fileUnlock, Lock.exists, FS.pathExists,
      hp, hr, hu, hd, List.mem_filter]

/-- Witness for C6 on the state produced by a successful acquire. -/
theorem release_then_exists_false_witness :
    env0.removeErr l5.path = none ∧ l5.path ∉ fs5.dirs ∧
    (Lock.exists (Lock.release env0 l5 fs5).1
      (Lock.release env0 l5 fs5).2).1 = false :=
  ⟨rfl, by decide, release_then_exists_false env0 l5 fs5 rfl (by decide)⟩

end SMLock
